import Mathlib

set_option maxRecDepth 8192

/-!
Verification development for the `fine-bot` scraper (`src/scrapper.py`).

The development shallowly embeds the scraper's logic:

* HTML markup (already parsed by BeautifulSoup in the source) is modelled as a
  tree (`Html`), and the BeautifulSoup traversal operations used by the source
  (`descendants`, `find`, `find_all` with and without `recursive=False`,
  `.text`, attribute subscripting, `str(tag)`) are modelled as functions on
  that tree.
* Python exceptions are modelled with `Except PyErr`; a `.error` value means
  the corresponding Python code raises.
* Python `float` arithmetic (`float(s) * 100` in `format_money_element`) is
  modelled exactly: decimal literals are parsed into exact rationals (`Q`)
  and rounded to IEEE-754 binary64 by `floatOfQ` — round to nearest, ties to
  even, with the full range behaviour: subnormal rounding below `2^-1022`
  (underflowing to zero), overflow to infinity at `2^1024`.  The
  `inf`/`infinity`/`nan` words parse to the non-finite values, on which the
  subsequent `math.ceil` raises exactly as in CPython.
* Network traffic and the CAPTCHA oracle are inputs: an environment record
  holds the parsed pages, the final redirect URLs, the response bodies and the
  oracle's answer.
-/

/-- Python exceptions that the scraper can raise, by kind. -/
inductive PyErr where
  | indexError
  | typeError
  | keyError
  | valueError
  | overflowError
  | attributeError
deriving DecidableEq

deriving instance DecidableEq for Except

/-- Is an `Except` result an error (a raised Python exception)? -/
def isErr {α : Type} : Except PyErr α → Bool
  | .error _ => true
  | .ok _ => false

/-- Turn an `Option` into an `Except`, raising `e` on `none`. -/
def orRaise {α : Type} (x : Option α) (e : PyErr) : Except PyErr α :=
  match x with
  | some a => .ok a
  | none => .error e

/-- Python `list[i]`: raises `IndexError` when out of range. -/
def pyIdx {α : Type} (l : List α) (i : ℕ) : Except PyErr α :=
  orRaise (l.get? i) .indexError

/-- Sequential map under exceptions: Python's `list(map(f, xs))` where `f` can
raise; the first raise aborts the whole traversal. -/
def mapE {α β : Type} (f : α → Except PyErr β) : List α → Except PyErr (List β)
  | [] => .ok []
  | x :: xs =>
    match f x with
    | .error e => .error e
    | .ok y =>
      match mapE f xs with
      | .error e => .error e
      | .ok ys => .ok (y :: ys)

/-! ### Exact rational arithmetic

A scratch-built rational pair type.  Denominators produced by the parsers and
the float model are always positive; the representation is not reduced, which
keeps every operation a plain integer computation. -/

/-- An exact (unreduced) rational number `n / d`. -/
structure Q where
  n : ℤ
  d : ℕ
deriving DecidableEq

/-- Exact product of two `Q` values. -/
def Q.mul (x y : Q) : Q := ⟨x.n * y.n, x.d * y.d⟩

/-- Exact ceiling of a `Q` value (`⌈n/d⌉` for positive `d`). -/
def Q.ceil (x : Q) : ℤ := -((-x.n).fdiv (x.d : ℤ))

/-! ### IEEE-754 binary64 rounding, exactly

`floatOfQ` rounds an exact rational to binary64 (round to nearest, ties to
even) over the full IEEE-754 range: magnitudes below `2^-1022` round on the
fixed subnormal grid of step `2^-1074` (underflowing to zero below half the
smallest subnormal), and a rounded magnitude reaching `2^1024` overflows to
the corresponding infinity.  Finite values are held as exact rationals.
This is the value CPython's correctly rounded `float(string)` conversion
and float multiplication produce. -/

/-- Floor of the base-2 logarithm of a number below `2^64`, by fueled
halving; exact when the fuel is at least the bit length. -/
def log2small : ℕ → ℕ → ℕ
  | 0, _ => 0
  | f + 1, n => if 2 ≤ n then log2small f (n / 2) + 1 else 0

/-- Floor of the base-2 logarithm, by fueled 64-bit strides followed by
single-bit halving (the strides keep the recursion shallow on very large
numbers); exact for `1 ≤ n < 2 ^ (64 * fuel)`.  The fuel used below (10^5)
covers every number a parsed decimal string of fewer than ~1.9 million
characters can produce. -/
def log2fuel : ℕ → ℕ → ℕ
  | 0, _ => 0
  | f + 1, n => if 2 ^ 64 ≤ n then log2fuel f (n / 2 ^ 64) + 64 else log2small 64 n

/-- Round `num / den` (both naturals, `den ≠ 0`) to the nearest integer,
ties to even. -/
def rnde (num den : ℕ) : ℕ :=
  let q := num / den
  let r := num % den
  if den < 2 * r then q + 1
  else if 2 * r < den then q
  else if q % 2 = 0 then q else q + 1

/-- Does `a * 2 ^ x / b` (with `x : ℤ`) fall below `2 ^ 52`? -/
def scaledBelow (a b : ℕ) (x : ℤ) : Bool :=
  if 0 ≤ x then a * 2 ^ x.toNat < 2 ^ 52 * b else a < 2 ^ 52 * b * 2 ^ (-x).toNat

/-- Reassemble a rounded mantissa `m` and scaling exponent `x` into the
value `m * 2 ^ (-x)`. -/
def mkRounded (m : ℕ) (x : ℤ) : Q :=
  if 0 ≤ x then ⟨(m : ℤ), 2 ^ x.toNat⟩ else ⟨(m : ℤ) * ((2 ^ (-x).toNat : ℕ) : ℤ), 1⟩

/-- Round a positive fraction `a / b` to the nearest binary64 value: scale by
`2 ^ x` so the scaled value lies in `[2^52, 2^53)`, round that to the nearest
integer mantissa (ties to even), and undo the scaling. -/
def roundPos (a b : ℕ) : Q :=
  let bn := log2fuel 100000 a
  let bd := log2fuel 100000 b
  let x0 : ℤ := 52 + (bd : ℤ) - (bn : ℤ)
  let x : ℤ := if scaledBelow a b x0 then x0 + 1 else x0
  let m : ℕ := if 0 ≤ x then rnde (a * 2 ^ x.toNat) b else rnde a (b * 2 ^ (-x).toNat)
  mkRounded m x

/-- A Python float value: a finite binary64 value held exactly as a
rational, or one of the non-finite values `inf`, `-inf`, `nan`. -/
inductive PyFloat where
  | finite (q : Q)
  | inf
  | negInf
  | nan
deriving DecidableEq

/-- Overflow step of IEEE-754 rounding: a rounded magnitude of `2^1024` or
more (beyond the largest finite double) becomes infinity. -/
def mkSaturated (r : Q) : PyFloat :=
  if 2 ^ 1024 * r.d ≤ r.n.natAbs then .inf else .finite r

/-- Round a positive magnitude `a / b` to binary64: below the normal range
(`a / b < 2^-1022`) round on the fixed subnormal grid of step `2^-1074`
(which underflows to zero for tiny values); otherwise round normally and
saturate to infinity on overflow. -/
def floatOfPos (a b : ℕ) : PyFloat :=
  if a * 2 ^ 1022 < b then .finite ⟨(rnde (a * 2 ^ 1074) b : ℤ), 2 ^ 1074⟩
  else mkSaturated (roundPos a b)

/-- IEEE-754 sign symmetry: negate a float value. -/
def pyNegF : PyFloat → PyFloat
  | .finite q => .finite ⟨-q.n, q.d⟩
  | .inf => .negInf
  | .negInf => .inf
  | .nan => .nan

/-- Round an exact rational to binary64 (round to nearest, ties to even,
subnormals and overflow as in IEEE-754).  A zero denominator (never
produced by the parsers) maps to zero. -/
def floatOfQ (x : Q) : PyFloat :=
  if x.d = 0 then .finite ⟨0, 1⟩
  else if x.n = 0 then .finite ⟨0, 1⟩
  else if x.n < 0 then pyNegF (floatOfPos x.n.natAbs x.d)
  else floatOfPos x.n.natAbs x.d

/-- Python float multiplication by the integer `100` (`float.__mul__` after
`int` conversion): the exact product rounded to binary64 for finite values
(overflowing to infinity where IEEE-754 does); non-finite values absorb. -/
def pyMul100 : PyFloat → PyFloat
  | .finite q => floatOfQ ⟨q.n * 100, q.d⟩
  | .inf => .inf
  | .negInf => .negInf
  | .nan => .nan

/-- Python `math.ceil` on a float: the exact ceiling of a finite value;
`OverflowError` on the infinities, `ValueError` on `nan`. -/
def pyCeil : PyFloat → Except PyErr ℤ
  | .finite q => .ok (Q.ceil q)
  | .inf => .error .overflowError
  | .negInf => .error .overflowError
  | .nan => .error .valueError

/-! ### Number parsing -/

/-- Numeric value of a decimal digit character. -/
def digitVal (c : Char) : ℕ := c.toNat - 48

/-- Scan a run of decimal digits, allowing the single underscores Python
permits strictly between digits (an underscore must follow a digit of the
run and be followed by another digit); returns the accumulated value, the
number of digits consumed, and the rest of the input. -/
def scanDigits (acc len : ℕ) : List Char → ℕ × ℕ × List Char
  | [] => (acc, len, [])
  | c :: rest =>
    if c.isDigit then scanDigits (acc * 10 + digitVal c) (len + 1) rest
    else if c = Char.ofNat 95 ∧ 0 < len then
      match rest with
      | d :: rest2 =>
        if d.isDigit then scanDigits (acc * 10 + digitVal d) (len + 1) rest2
        else (acc, len, c :: d :: rest2)
      | [] => (acc, len, [c])
    else (acc, len, c :: rest)

/-- Apply a decimal exponent to an exact rational. -/
def applyExp (x : Q) (e : ℤ) : Q :=
  if 0 ≤ e then ⟨x.n * ((10 ^ e.toNat : ℕ) : ℤ), x.d⟩ else ⟨x.n, x.d * 10 ^ (-e).toNat⟩

/-- Parse the tail of a Python float literal after the optional sign: digits,
an optional fractional part, an optional exponent.  Returns the exact rational
value. -/
def parseUnsigned (cs : List Char) : Option Q :=
  let (ip, il, rest1) := scanDigits 0 0 cs
  let (fp, fl, rest2) :=
    match rest1 with
    | c :: r => if c = '.' then scanDigits 0 0 r else (0, 0, rest1)
    | [] => (0, 0, rest1)
  if il + fl = 0 then none
  else
    let mant : Q := ⟨(ip * 10 ^ fl + fp : ℕ), 10 ^ fl⟩
    match rest2 with
    | [] => some mant
    | c :: r =>
      if c = 'e' ∨ c = 'E' then
        let (esign, r2) : ℤ × List Char :=
          match r with
          | s :: r3 => if s = '-' then (-1, r3) else if s = '+' then (1, r3) else (1, r)
          | [] => (1, r)
        let (ev, el, rest3) := scanDigits 0 0 r2
        if el = 0 ∨ rest3 ≠ [] then none else some (applyExp mant (esign * ev))
      else none

/-- The classes of literal Python's `float(string)` accepts: a finite
decimal literal (held as its exact rational value), or the case-insensitive
`inf`/`infinity` and `nan` words; everything else raises `ValueError`. -/
inductive PyFloatLit where
  | num (q : Q)
  | infLit
  | negInfLit
  | nanLit
deriving DecidableEq

/-- Sign flip of a parsed literal (`float("-nan")` is still `nan`). -/
def PyFloatLit.neg : PyFloatLit → PyFloatLit
  | .num q => .num ⟨-q.n, q.d⟩
  | .infLit => .negInfLit
  | .negInfLit => .infLit
  | .nanLit => .nanLit

/-- ASCII lower-casing, for the case-insensitive `inf`/`nan` words. -/
def lowerAscii (c : Char) : Char :=
  if 65 ≤ c.toNat ∧ c.toNat ≤ 90 then Char.ofNat (c.toNat + 32) else c

/-- The part of a float literal after the optional sign: one of the
`inf`/`infinity`/`nan` words, or a decimal literal via `parseUnsigned`. -/
def parseUnsignedLit (cs : List Char) : Option PyFloatLit :=
  let low := cs.map lowerAscii
  if low = "inf".data ∨ low = "infinity".data then some .infLit
  else if low = "nan".data then some .nanLit
  else (parseUnsigned cs).map .num

/-- Python `float(string)`: optional surrounding whitespace, an optional
sign, then a decimal literal (with Python's between-digits underscore rule)
or one of the non-finite words; `none` models the `ValueError` raised on
anything else. -/
def parsePyFloat (cs : List Char) : Option PyFloatLit :=
  let cs := (cs.dropWhile Char.isWhitespace).reverse.dropWhile Char.isWhitespace |>.reverse
  match cs with
  | c :: rest =>
    if c = '-' then (parseUnsignedLit rest).map PyFloatLit.neg
    else if c = '+' then parseUnsignedLit rest
    else parseUnsignedLit cs
  | [] => none

/-- The float value `float(string)` returns for an accepted literal: finite
literals are rounded to binary64 (saturating per IEEE-754); the words give
the non-finite values. -/
def pyFloatOfLit : PyFloatLit → PyFloat
  | .num q => floatOfQ q
  | .infLit => .inf
  | .negInfLit => .negInf
  | .nanLit => .nan

/-- All characters are decimal digits. -/
def allDigits (cs : List Char) : Bool := cs.all Char.isDigit

/-- Value of a digit string. -/
def natOfDigits (cs : List Char) : ℕ := cs.foldl (fun acc c => acc * 10 + digitVal c) 0

/-- Split a character list at every dot. -/
def splitDots : List Char → List (List Char)
  | [] => [[]]
  | c :: rest =>
    let r := splitDots rest
    if c = '.' then [] :: r
    else
      match r with
      | g :: gs => (c :: g) :: gs
      | [] => [[c]]

/-- A calendar date as produced by `datetime.date`. -/
structure PyDate where
  year : ℕ
  month : ℕ
  day : ℕ
deriving DecidableEq

/-- Gregorian leap year, as in Python's `datetime`. -/
def isLeap (y : ℕ) : Bool := y % 4 = 0 && (y % 100 ≠ 0 || y % 400 = 0)

/-- Number of days in a month, as validated by `datetime.date`. -/
def daysInMonth (y m : ℕ) : ℕ :=
  if m = 2 then (if isLeap y then 29 else 28)
  else if m = 4 ∨ m = 6 ∨ m = 9 ∨ m = 11 then 30
  else 31

/-- Python `datetime.strptime(s, "%d.%m.%Y").date()`: two dot-separated
fields of one or two digits (day `1..31`, month `1..12`) and a four-digit
year, with full calendar validation; anything else raises `ValueError`
(modelled as `none`). -/
def parseDate (cs : List Char) : Option PyDate :=
  match splitDots cs with
  | [ds, ms, ys] => do
    guard (1 ≤ ds.length ∧ ds.length ≤ 2 ∧ allDigits ds = true)
    let d := natOfDigits ds
    guard (1 ≤ d ∧ d ≤ 31)
    guard (1 ≤ ms.length ∧ ms.length ≤ 2 ∧ allDigits ms = true)
    let m := natOfDigits ms
    guard (1 ≤ m ∧ m ≤ 12)
    guard (ys.length = 4 ∧ allDigits ys = true)
    let y := natOfDigits ys
    guard (1 ≤ y)
    guard (d ≤ daysInMonth y m)
    pure ⟨y, m, d⟩
  | _ => none

/-! Sanity checks of the numeric model against CPython (kept as anonymous
examples; each equality below reproduces an observed CPython result). -/

example : parsePyFloat "10.001".data = some (.num ⟨10001, 1000⟩) := by decide
example : parsePyFloat "0.07".data = some (.num ⟨7, 100⟩) := by decide
example : parsePyFloat "-1.00".data = some (.num ⟨-100, 100⟩) := by decide
example : parsePyFloat "N/A".data = none := by decide
example : parsePyFloat "".data = none := by decide
example : parsePyFloat "_5.00".data = none := by decide
example : parsePyFloat "5_0.5".data = some (.num ⟨505, 10⟩) := by decide
example : parsePyFloat "5_".data = none := by decide
example : parsePyFloat "5._0".data = none := by decide
example : parsePyFloat "1_e5".data = none := by decide
example : parsePyFloat "1e_5".data = none := by decide
example : parsePyFloat "INFINITY".data = some .infLit := by decide
example : parsePyFloat "-inf".data = some .negInfLit := by decide
example : parsePyFloat "-nan".data = some .nanLit := by decide
example : floatOfQ ⟨155, 10⟩ = .finite ⟨8725724278030336, 562949953421312⟩ := by decide
example : pyCeil (pyMul100 (floatOfQ ⟨1000, 100⟩)) = .ok 1000 := by decide
example : pyCeil (pyMul100 (floatOfQ ⟨10001, 1000⟩)) = .ok 1001 := by decide
example : pyCeil (pyMul100 (floatOfQ ⟨7, 100⟩)) = .ok 8 := by decide
example : pyCeil (pyMul100 (floatOfQ ⟨155, 10⟩)) = .ok 1550 := by decide
example : pyCeil (pyMul100 (floatOfQ ⟨290000000000000001, 1000000000000000000⟩)) = .ok 29 := by
  decide
example : floatOfQ ⟨10 ^ 400, 1⟩ = .inf := by decide
example : pyCeil (pyMul100 (floatOfQ ⟨10 ^ 400, 1⟩)) = .error .overflowError := by decide
example : pyCeil (pyMul100 (floatOfQ ⟨1, 10 ^ 400⟩)) = .ok 0 := by decide
example : pyCeil (pyMul100 (floatOfQ ⟨-1, 10 ^ 400⟩)) = .ok 0 := by decide
example : floatOfQ ⟨10 ^ 308, 1⟩ ≠ .inf := by decide
example : pyMul100 (floatOfQ ⟨10 ^ 308, 1⟩) = .inf := by decide
example : pyCeil (pyMul100 (floatOfQ ⟨1, 10 ^ 323⟩)) = .ok 1 := by decide
example : pyCeil (pyMul100 (pyFloatOfLit .infLit)) = .error .overflowError := by decide
example : pyCeil (pyMul100 (pyFloatOfLit .nanLit)) = .error .valueError := by decide
example : parseDate "01.05.2023".data = some ⟨2023, 5, 1⟩ := by decide
example : parseDate "31.04.2023".data = none := by decide
example : parseDate "29.02.2024".data = some ⟨2024, 2, 29⟩ := by decide
example : parseDate "29.02.2023".data = none := by decide
example : parseDate "1.5.2023".data = some ⟨2023, 5, 1⟩ := by decide
example : parseDate "01.05.23".data = none := by decide

/-! ### Markup trees and the BeautifulSoup operations the scraper uses -/

/-- A parsed markup node: an element with a name, attributes in document
order, and children in document order, or a free text node (BeautifulSoup's
`NavigableString`). -/
inductive Html where
  | tag (name : String) (attrs : List (String × String)) (children : List Html)
  | text (s : String)

/-- Immediate children of a node (empty for text nodes). -/
def childrenOf : Html → List Html
  | .tag _ _ cs => cs
  | .text _ => []

mutual
/-- BeautifulSoup `tag.descendants`: every node strictly below `h`, in
document (pre-)order. -/
def descendants : Html → List Html
  | .text _ => []
  | .tag _ _ cs => descendantsL cs

/-- Descendants of a forest: each root followed by its own descendants. -/
def descendantsL : List Html → List Html
  | [] => []
  | c :: cs => c :: descendants c ++ descendantsL cs
end

mutual
/-- BeautifulSoup `tag.text` / `NavigableString.text`: the concatenation of
all text below (or at) the node, in document order. -/
def textOf : Html → String
  | .text s => s
  | .tag _ _ cs => textOfL cs

/-- Concatenated text of a forest. -/
def textOfL : List Html → String
  | [] => ""
  | c :: cs => textOf c ++ textOfL cs
end

/-- Attribute lookup (`tag.attrs.get`); `none` on text nodes and absent keys. -/
def attrOf (h : Html) (key : String) : Option String :=
  match h with
  | .text _ => none
  | .tag _ attrs _ => (attrs.find? (fun kv => kv.1 == key)).map (fun kv => kv.2)

/-- Is `h` an element with the given tag name?  (BeautifulSoup name filters
never match strings.) -/
def isTag (name : String) (h : Html) : Bool :=
  match h with
  | .tag n _ _ => n == name
  | .text _ => false

/-- Does `h` carry the attribute `key` with exactly the value `v`? -/
def attrIs (h : Html) (key v : String) : Bool := attrOf h key == some v

/-- Split a character list at spaces, dropping empty groups. -/
def splitSpaces : List Char → List (List Char)
  | [] => [[]]
  | c :: rest =>
    let r := splitSpaces rest
    if c = ' ' then [] :: r
    else
      match r with
      | g :: gs => (c :: g) :: gs
      | [] => [[c]]

/-- BeautifulSoup class matching: the `class` attribute is whitespace-split
into individual class names and the wanted name must be among them.
(Whitespace is modelled as the space character, the separator used by the
portal's markup.) -/
def hasClass (c : String) (h : Html) : Bool :=
  match attrOf h "class" with
  | some v => (splitSpaces v.data).contains c.data
  | none => false

/-- BeautifulSoup `tag.find(pred)`: the first matching descendant in document
order, or `None`. -/
def findIn (p : Html → Bool) (h : Html) : Option Html :=
  (descendants h).find? p

/-- BeautifulSoup `tag.find_all(pred)`: all matching descendants in document
order. -/
def findAllIn (p : Html → Bool) (h : Html) : List Html :=
  (descendants h).filter p

/-- BeautifulSoup `tag.find_all(pred, recursive=False)`: the matching
immediate children, in order. -/
def findAllNR (p : Html → Bool) (h : Html) : List Html :=
  (childrenOf h).filter p

/-- Render one attribute as ` key="value"`. -/
def renderAttr (kv : String × String) : String :=
  " " ++ kv.1 ++ "=" ++ "\"" ++ kv.2 ++ "\""

mutual
/-- Python `str(tag)`: serialise the subtree back to markup.  Faithful to
BeautifulSoup's output for markup that needs no entity escaping and has no
void elements — which covers the detail-page fragments the media scanner
feeds to `re.search`. -/
def render : Html → String
  | .text s => s
  | .tag n attrs cs =>
      "<" ++ n ++ String.join (attrs.map renderAttr) ++ ">" ++ renderL cs ++ "</" ++ n ++ ">"

/-- Serialised concatenation of a forest. -/
def renderL : List Html → String
  | [] => ""
  | c :: cs => render c ++ renderL cs
end

/-! ### Substring search and the audio-reference pattern -/

/-- Does `pat` occur at the head of `l`? -/
def headMatches : List Char → List Char → Bool
  | [], _ => true
  | _ :: _, [] => false
  | a :: as, b :: bs => a == b && headMatches as bs

/-- Does `pat` occur anywhere in `l`?  Models Python `l.find(pat) != -1`. -/
def containsSub (pat : List Char) : List Char → Bool
  | [] => headMatches pat []
  | c :: rest => headMatches pat (c :: rest) || containsSub pat rest

/-- String-level substring containment. -/
def strContainsSub (s pat : String) : Bool := containsSub pat.data s.data

/-- The apostrophe character (written numerically). -/
def apos : Char := Char.ofNat 39

/-- The newline character. -/
def nlChar : Char := Char.ofNat 10

/-- The fixed left part of the audio pattern `'oggvideo-`. -/
def oggLit1 : List Char := apos :: "oggvideo-".data

/-- The fixed right part of the audio pattern `.ogg';src2`. -/
def oggLit2 : List Char := ".ogg".data ++ [apos] ++ ";src2".data

/-- At one candidate position (input already past `oggLit1`), find the
greedy capture of `(.*)`: the longest prefix free of newlines after which
`oggLit2` matches. -/
def oggTryAt (r : List Char) : Option (List Char) :=
  let w := (r.takeWhile (fun c => !(c == nlChar))).length
  let ks := (List.range (w + 1)).filter (fun k => headMatches oggLit2 (r.drop k))
  ks.getLast?.map (fun k => r.take k)

/-- Python `re.search(r"'oggvideo-(.*)\.ogg';src2", s)`: the leftmost
position where the whole pattern can match, with a greedy, newline-free
capture group; `none` when the pattern matches nowhere (where the source's
`result.groups()` then raises `AttributeError`). -/
def oggSearch : List Char → Option (List Char)
  | [] => none
  | c :: rest =>
    if headMatches oggLit1 (c :: rest) then
      match oggTryAt ((c :: rest).drop oggLit1.length) with
      | some cap => some cap
      | none => oggSearch rest
    else oggSearch rest

example :
    oggSearch "<div><script>x='oggvideo-42.ogg';src2=1;</script></div>".data =
      some "42".data := by decide
example : oggSearch "<div>hello</div>".data = none := by decide
example : strContainsSub "https://x/protocols.php?a=1" "protocols.php" = true := by decide
example : strContainsSub "https://x/index.php" "protocols.php" = false := by decide
example :
    textOf (.tag "span" [] [.text "a", .tag "b" [] [.text "c"], .text "d"]) = "acd" := by decide
example :
    render (.tag "div" [("id", "x")] [.text "hi"]) = "<div id=\"x\">hi</div>" := by decide

/-! ### Domain model

`models.py` and `config.py` are not part of the provided sources; the record
and enumeration shapes below are modelled from the spec (sections 3 and 6). -/

/-- Modelled from the spec: `models.ProtocolStatus` — the closed status
enumeration `PAID_ON_TIME | UNPAID | UNKNOWN`. -/
inductive ProtocolStatus where
  | PAID_ON_TIME
  | UNPAID
  | UNKNOWN
deriving DecidableEq

/-- Modelled from the spec: `models.MediaType` — the media kind enumeration
`PNG | OGG`. -/
inductive MediaType where
  | PNG
  | OGG
deriving DecidableEq

/-- Modelled from the spec: `models.Media` — one evidentiary attachment: a
raw binary payload (bytes) and its kind. -/
structure Media where
  blob : List ℕ
  type : MediaType
deriving DecidableEq

/-- Modelled from the spec: `models.Protocol` — one violation record.  The
media sequence starts empty at creation and is attached afterwards by the
orchestrator. -/
structure Protocol where
  protocol_number : String
  car_state_number : String
  date : PyDate
  violation_code : String
  amount : ℤ
  status : ProtocolStatus
  media : List Media := []
deriving DecidableEq

/-- Modelled from the spec: `config.Config` — inbound configuration: portal
base URL, optional pre-existing session token, document number, vehicle
number and the CAPTCHA-oracle credentials.  `session_id` is `none` when no
prior token is configured; the empty string is falsy in Python, which the
truthiness tests below preserve. -/
structure Config where
  base_url : String
  session_id : Option String
  document_number : String
  vehicle_number : String
  anti_captcha_key : String
  anti_captcha_soft_id : ℕ
deriving DecidableEq

/-- Python truthiness of an optional string (`if config.session_id:` and
`if not self._config.session_id:`): `None` and `""` are falsy. -/
def truthy : Option String → Bool
  | none => false
  | some s => !(s == "")

/-! ### Environments

All network and oracle behaviour is an input to the model: the environment
records what each request comes back with. -/

/-- Requests issued during authentication, in order (`scrapper.py` lines
50, 55 and 82). -/
inductive Req where
  | getRoot
  | getCaptchaImg
  | postLogin
deriving DecidableEq

/-- The world `_authenticate` interacts with: the parsed login page, the
CAPTCHA oracle's answer (`none` models the sentinel `0` returned for an
unsolved CAPTCHA), the final URL of the login POST after redirects, and the
`PHPSESSID` cookie held by the jar after that POST. -/
structure AuthEnv where
  loginPage : Html
  captchaSolution : Option String
  postFinalUrl : String
  postSessionCookie : Option String

/-- The world `get_protocols` interacts with: the parsed listing page, the
parsed detail page reached from each relative href, and the response body
bytes for each absolute media URL. -/
structure ScrapeEnv where
  listingPage : Html
  detailPage : String → Html
  blob : String → List ℕ

/-! ### Session probe and authenticator (`scrapper.py` lines 35-109) -/

/-- `_is_authenticated` (lines 35-44): GET `{base}/protocols.php` and
compare the response's final URL (after redirects, given by `finalUrl`) with
the requested URL; equality means the session is valid. -/
def is_authenticated (base_url : String) (finalUrl : String) : Bool :=
  finalUrl == base_url ++ "/protocols.php"

/-- The CAPTCHA image locator: `soup.find("img", id="captcha_code_img")`. -/
def captchaImgPred (h : Html) : Bool := isTag "img" h && attrIs h "id" "captcha_code_img"

/-- The anti-forgery token locator: `soup.find("input", {"name": "csrf_token"})`. -/
def csrfPred (h : Html) : Bool := isTag "input" h && attrIs h "name" "csrf_token"

/-- `_authenticate` (lines 46-109).  Returns the list of requests issued and
either a raised exception or the Python return value (`None` or a session
id).  Control flow mirrors the source: clear cookies, GET the root page,
locate the CAPTCHA image (subscripting `["src"]` raises on a missing element
or attribute), GET the image, hand it to the oracle, short-circuit with
`None` on the unsolved sentinel, then POST the login form (building the form
data subscripts the `csrf_token` element found on line 53, raising if it was
absent) and decide by whether the final URL contains `protocols.php`; on
success the return value is whatever `PHPSESSID` the cookie jar holds. -/
def authenticate (env : AuthEnv) : List Req × Except PyErr (Option String) :=
  match findIn captchaImgPred env.loginPage with
  | none => ([Req.getRoot], .error .typeError)
  | some img =>
    match attrOf img "src" with
    | none => ([Req.getRoot], .error .keyError)
    | some _ =>
      match env.captchaSolution with
      | none => ([Req.getRoot, Req.getCaptchaImg], .ok none)
      | some _ =>
        match findIn csrfPred env.loginPage with
        | none => ([Req.getRoot, Req.getCaptchaImg], .error .typeError)
        | some csrf =>
          match attrOf csrf "value" with
          | none => ([Req.getRoot, Req.getCaptchaImg], .error .keyError)
          | some _ =>
            if strContainsSub env.postFinalUrl "protocols.php" then
              ([Req.getRoot, Req.getCaptchaImg, Req.postLogin], .ok env.postSessionCookie)
            else
              ([Req.getRoot, Req.getCaptchaImg, Req.postLogin], .ok none)

/-- Outcome of constructing the `Scrapper`. -/
inductive InitOutcome where
  | authenticated
  | raisedAuthError
  | raisedPyErr
deriving DecidableEq

/-- `Scrapper.__init__` (lines 21-33): seed the cookie jar from a truthy
configured token (folded into `probeFinalUrl`), probe, and when the probe
fails store `_authenticate`'s return value into `config.session_id`
unconditionally, raising `Exception("Unable to authenticate…")` when the
stored value is falsy.  Returns the final configuration and the outcome. -/
def scrapper_init (cfg : Config) (probeFinalUrl : String) (env : AuthEnv) :
    Config × InitOutcome :=
  if is_authenticated cfg.base_url probeFinalUrl then (cfg, .authenticated)
  else
    match (authenticate env).2 with
    | .error _ => (cfg, .raisedPyErr)
    | .ok r =>
      let cfg2 := { cfg with session_id := r }
      if truthy r then (cfg2, .authenticated) else (cfg2, .raisedAuthError)

/-! ### Row extractor (`scrapper.py` lines 134-179) -/

/-- `format_date` (lines 137-141): `descendants[0]` raises `IndexError` on an
empty column; the first descendant's `.text` is parsed with
`strptime("%d.%m.%Y")`, a mismatch raising `ValueError`. -/
def format_date (tag : Html) : Except PyErr PyDate :=
  match descendants tag with
  | [] => .error .indexError
  | d :: _ => orRaise (parseDate (textOf d).data) .valueError

/-- `format_money_element` (lines 143-151): with no descendants the result is
`0`; otherwise the first descendant must be a raw string (slicing a `Tag`
raises `TypeError`), its last four characters are dropped and the rest is
handed to `float(...)` (an unaccepted literal raising `ValueError`); the
float is multiplied by `100` in binary64 arithmetic and `math.ceil` of the
product is returned — raising `OverflowError`/`ValueError` when the float
computation is non-finite. -/
def format_money_element (tag : Html) : Except PyErr ℤ :=
  match descendants tag with
  | [] => .ok 0
  | d :: _ =>
    match d with
    | .text s =>
      let trimmed := s.data.take (s.data.length - 4)
      match parsePyFloat trimmed with
      | none => .error .valueError
      | some lit => pyCeil (pyMul100 (pyFloatOfLit lit))
    | .tag _ _ _ => .error .typeError

/-- The portal's localized "paid on time" status string. -/
def paidOnTimeText : String := "გადახდილია დროულად"

/-- The portal's localized "unpaid" status string. -/
def unpaidText : String := "გადაუხდელია"

/-- `format_status` (lines 153-160): exact text match against the two known
localized strings; everything else is `UNKNOWN`.  Total — it cannot raise. -/
def format_status (tag : Html) : ProtocolStatus :=
  if textOf tag == paidOnTimeText then .PAID_ON_TIME
  else if textOf tag == unpaidText then .UNPAID
  else .UNKNOWN

/-- `_get_protocol_info` (lines 134-179): collect the `span.col` columns,
take the first two free-text fragments of column 1 positionally (the logging
call on lines 166-170 already subscripts both, raising `IndexError` when
fewer than two exist), and build the record from columns 2, 3, 4 and 6.
The `media` sequence of a freshly created `Protocol` is empty. -/
def get_protocol_info (row : Html) : Except PyErr Protocol :=
  let cols := findAllIn (fun h => isTag "span" h && hasClass "col" h) row
  do
    let c1 ← pyIdx cols 1
    let receipt_and_numbers :=
      (descendants c1).filterMap (fun h => match h with | .text s => some s | _ => none)
    let protocol_number ← pyIdx receipt_and_numbers 0
    let car_state_number ← pyIdx receipt_and_numbers 1
    let c2 ← pyIdx cols 2
    let date ← format_date c2
    let c3 ← pyIdx cols 3
    let c4 ← pyIdx cols 4
    let amount ← format_money_element c4
    let c6 ← pyIdx cols 6
    .ok { protocol_number := protocol_number
          car_state_number := car_state_number
          date := date
          violation_code := textOf c3
          amount := amount
          status := format_status c6 }

/-! ### Media extractor (`scrapper.py` lines 181-206) -/

/-- The wrapper locator of `_get_protocol_media` (lines 186-190):
`soup.find("div", id="content").find("div").find_all("div", recursive=False)[1]`.
A missing `div#content` or inner `div` raises (`AttributeError` on `None`),
fewer than two immediate `div` children raise `IndexError`. -/
def wrapper_of (page : Html) : Except PyErr Html := do
  let content ← orRaise (findIn (fun h => isTag "div" h && attrIs h "id" "content") page)
    .attributeError
  let inner ← orRaise (findIn (isTag "div") content) .attributeError
  pyIdx (findAllNR (isTag "div") inner) 1

/-- The attachment placeholders: `wrapper.find_all("div", recursive=False)`
(line 206) — the immediate `div`-element children of the wrapper. -/
def placeholders (wrapper : Html) : List Html := findAllNR (isTag "div") wrapper

/-- `create_media_blob` (lines 192-204): an embedded `img` makes a PNG from
the image's `src` (a missing `src` raises `KeyError`); otherwise the
serialised markup is scanned for the `'oggvideo-<id>.ogg';src2` pattern, a
failed search raising `AttributeError` (`result.groups()` on `None`).  The
resolved URL is fetched relative to the portal base and the response body
becomes the payload. -/
def create_media_blob (cfg : Config) (env : ScrapeEnv) (tag : Html) :
    Except PyErr Media :=
  match findIn (isTag "img") tag with
  | some img => do
    let src ← orRaise (attrOf img "src") .keyError
    .ok { blob := env.blob (cfg.base_url ++ "/" ++ src), type := .PNG }
  | none =>
    match oggSearch (render tag).data with
    | some cap =>
      let url := "oggvideo-" ++ String.mk cap ++ ".ogg"
      .ok { blob := env.blob (cfg.base_url ++ "/" ++ url), type := .OGG }
    | none => .error .attributeError

/-- `_get_protocol_media` (lines 181-206): fetch and parse the detail page,
locate the structural wrapper, and resolve each placeholder to a media blob
in document order. -/
def get_protocol_media (cfg : Config) (env : ScrapeEnv) (media_page_url : String) :
    Except PyErr (List Media) := do
  let wrapper ← wrapper_of (env.detailPage media_page_url)
  mapE (create_media_blob cfg env) (placeholders wrapper)

/-! ### Orchestration (`scrapper.py` lines 111-132) -/

/-- `process_protocol_row` (lines 122-130): a row with an `a` descendant has
its columns parsed out of that link element and its media attached from the
link's `href` (subscripting a missing `href` raises `KeyError`); a row
without a link is parsed as-is and keeps its empty media sequence. -/
def process_protocol_row (cfg : Config) (env : ScrapeEnv) (row : Html) :
    Except PyErr Protocol :=
  match findIn (isTag "a") row with
  | some media_link => do
    let protocol ← get_protocol_info media_link
    let href ← orRaise (attrOf media_link "href") .keyError
    let media ← get_protocol_media cfg env href
    .ok { protocol with media := media }
  | none => get_protocol_info row

/-- The row collection of `get_protocols` (lines 118-120):
`soup.find("div", {"class": "grid"}).find_all("div", {"class": "row"})`;
a missing grid raises (`AttributeError` on `None`). -/
def listing_rows (env : ScrapeEnv) : Except PyErr (List Html) := do
  let grid ← orRaise (findIn (fun h => isTag "div" h && hasClass "grid" h) env.listingPage)
    .attributeError
  .ok (findAllIn (fun h => isTag "div" h && hasClass "row" h) grid)

/-- `get_protocols` (lines 111-132): fetch and parse the listing, then map
`process_protocol_row` over the grid rows in document order; the first raise
aborts the whole call. -/
def get_protocols (cfg : Config) (env : ScrapeEnv) : Except PyErr (List Protocol) := do
  let rows ← listing_rows env
  mapE (process_protocol_row cfg env) rows

/-! ### General lemmas about the exception monad and `mapE` -/

/-- Dissect a successful bind: the first step succeeded and the continuation
succeeded on its value. -/
theorem bindE_ok {α β : Type} {x : Except PyErr α} {f : α → Except PyErr β} {b : β}
    (h : x >>= f = .ok b) : ∃ a, x = .ok a ∧ f a = .ok b := by
  cases x with
  | error e => exact Except.noConfusion h
  | ok a => exact ⟨a, rfl, h⟩

/-- A raise in the first step makes the bind raise. -/
theorem bindE_isErr_left {α β : Type} {x : Except PyErr α} {f : α → Except PyErr β}
    (h : isErr x = true) : isErr (x >>= f) = true := by
  cases x with
  | error e => rfl
  | ok a => exact absurd h (by simp [isErr])

/-- A raise in the continuation makes the bind raise. -/
theorem bindE_isErr_right {α β : Type} {x : Except PyErr α} {f : α → Except PyErr β} {a : α}
    (hx : x = .ok a) (h : isErr (f a) = true) : isErr (x >>= f) = true := by
  subst hx; exact h

/-- `mapE` success produces one output per input. -/
theorem mapE_ok_length {α β : Type} {f : α → Except PyErr β} :
    ∀ {l : List α} {r : List β}, mapE f l = .ok r → r.length = l.length := by
  intro l
  induction l with
  | nil =>
    intro r h
    injection h with h
    subst h
    rfl
  | cons x xs ih =>
    intro r h
    simp only [mapE] at h
    split at h
    · exact Except.noConfusion h
    · split at h
      · exact Except.noConfusion h
      · injection h with h
        subst h
        simpa using ih (by assumption)

/-- `mapE` success is pointwise success, in order. -/
theorem mapE_ok_get {α β : Type} {f : α → Except PyErr β} :
    ∀ {l : List α} {r : List β}, mapE f l = .ok r →
      ∀ (i : ℕ) (h1 : i < l.length) (h2 : i < r.length),
        f (l.get ⟨i, h1⟩) = .ok (r.get ⟨i, h2⟩) := by
  intro l
  induction l with
  | nil =>
    intro r _ i h1
    exact absurd h1 (by simp)
  | cons x xs ih =>
    intro r h i h1 h2
    simp only [mapE] at h
    split at h
    · exact Except.noConfusion h
    · split at h
      · exact Except.noConfusion h
      · injection h with h
        subst h
        cases i with
        | zero => assumption
        | succ j => exact ih (by assumption) j (by simpa using h1) (by simpa using h2)

/-- If some member raises, so does the whole `mapE` traversal. -/
theorem mapE_isErr_of_mem {α β : Type} {f : α → Except PyErr β} {x : α} :
    ∀ {l : List α}, x ∈ l → isErr (f x) = true → isErr (mapE f l) = true := by
  intro l
  induction l with
  | nil => intro hm; exact absurd hm (by simp)
  | cons y ys ih =>
    intro hm hx
    simp only [mapE]
    rcases List.mem_cons.mp hm with hxy | hmem
    · subst hxy
      cases hfx : f x with
      | error e => rfl
      | ok b => rw [hfx] at hx; exact absurd hx (by simp [isErr])
    · cases hfy : f y with
      | error e => rfl
      | ok b =>
        have := ih hmem hx
        cases hrest : mapE f ys with
        | error e => rfl
        | ok bs => rw [hrest] at this; exact absurd this (by simp [isErr])

/-! ### Sign lemmas for the float model -/

/-- `mkRounded` never produces a negative numerator. -/
theorem mkRounded_n_nonneg (m : ℕ) (x : ℤ) : 0 ≤ (mkRounded m x).n := by
  unfold mkRounded
  split
  · exact Int.natCast_nonneg _
  · exact mul_nonneg (Int.natCast_nonneg _) (Int.natCast_nonneg _)

/-- `roundPos` never produces a negative numerator. -/
theorem roundPos_n_nonneg (a b : ℕ) : 0 ≤ (roundPos a b).n := by
  unfold roundPos
  exact mkRounded_n_nonneg _ _

/-- A finite binary64 rounding of a positive magnitude has a nonnegative
numerator. -/
theorem floatOfPos_finite_nonneg {a b : ℕ} {r : Q}
    (h : floatOfPos a b = .finite r) : 0 ≤ r.n := by
  unfold floatOfPos at h
  split at h
  · injection h with h
    subst h
    exact Int.natCast_nonneg _
  · unfold mkSaturated at h
    split at h
    · exact PyFloat.noConfusion h
    · injection h with h
      subst h
      exact roundPos_n_nonneg a b

/-- Binary64 rounding of a nonnegative rational, when finite, has a
nonnegative numerator. -/
theorem floatOfQ_finite_nonneg {x r : Q} (hx : 0 ≤ x.n)
    (h : floatOfQ x = .finite r) : 0 ≤ r.n := by
  unfold floatOfQ at h
  split at h
  · injection h with h
    subst h
    exact le_refl 0
  · split at h
    · injection h with h
      subst h
      exact le_refl 0
    · split at h
      · omega
      · exact floatOfPos_finite_nonneg h

/-- Flooring division of a nonpositive integer by a natural is nonpositive. -/
theorem fdiv_nonpos_of_nonpos {a : ℤ} {d : ℕ} (h : a ≤ 0) : a.fdiv (d : ℤ) ≤ 0 := by
  rw [Int.fdiv_eq_ediv _ (Int.natCast_nonneg d)]
  rcases Nat.eq_zero_or_pos d with h0 | hpos
  · subst h0; simp
  · have hd : (0 : ℤ) < (d : ℤ) := by exact_mod_cast hpos
    have := Int.ediv_le_ediv hd h
    simpa using this

/-- The ceiling of a rational with nonnegative numerator is nonnegative. -/
theorem Qceil_nonneg {x : Q} (h : 0 ≤ x.n) : 0 ≤ Q.ceil x := by
  unfold Q.ceil
  have := fdiv_nonpos_of_nonpos (a := -x.n) (d := x.d) (by omega)
  omega

/-! ### Concrete fixtures

Small pages in the portal's shape, used by the witnesses and
counterexamples below. -/

/-- A `span.col` column cell with the given children. -/
def colSpan (cs : List Html) : Html := .tag "span" [("class", "col")] cs

/-- An amount-style cell whose single descendant is a text node. -/
def mkCell (s : String) : Html := colSpan [.text s]

/-- A listing row element. -/
def mkRow (cs : List Html) : Html := .tag "div" [("class", "row")] cs

/-- The seven column cells of scenario A (claim C7): identifier fragments
`0001122` and `AA-001-BB`, date `01.05.2023`, violation code `K-5`, amount
`15.50GEL`, and the localized "unpaid" status text. -/
def colsA : List Html :=
  [colSpan [.text "x"],
   colSpan [.text "0001122", .text "AA-001-BB"],
   colSpan [.text "01.05.2023"],
   colSpan [.text "K-5"],
   colSpan [.text "15.50GEL"],
   colSpan [.text "y"],
   colSpan [.text unpaidText]]

/-- Scenario A as a plain row without a detail link. -/
def rowA : Html := mkRow colsA

/-- The record scenario A must produce. -/
def protocolA : Protocol :=
  { protocol_number := "0001122"
    car_state_number := "AA-001-BB"
    date := ⟨2023, 5, 1⟩
    violation_code := "K-5"
    amount := 1550
    status := .UNPAID }

/-- A second, link-free row: empty amount column, unknown status text. -/
def rowB : Html := mkRow
  [colSpan [.text "x"],
   colSpan [.text "0000002", .text "BB-002-CC"],
   colSpan [.text "02.06.2024"],
   colSpan [.text "K-9"],
   colSpan [],
   colSpan [.text "y"],
   colSpan [.text "???"]]

/-- The record `rowB` must produce (absent amount descends to `0`). -/
def protocolB : Protocol :=
  { protocol_number := "0000002"
    car_state_number := "BB-002-CC"
    date := ⟨2024, 6, 2⟩
    violation_code := "K-9"
    amount := 0
    status := .UNKNOWN }

/-- A row like scenario A but with amount text `-1.00XXXX` (claim C3). -/
def rowNeg : Html := mkRow
  [colSpan [.text "x"],
   colSpan [.text "0001122", .text "AA-001-BB"],
   colSpan [.text "01.05.2023"],
   colSpan [.text "K-5"],
   colSpan [.text "-1.00XXXX"],
   colSpan [.text "y"],
   colSpan [.text unpaidText]]

/-- A fixed scraper configuration with a previously stored session token. -/
def cfgOld : Config :=
  { base_url := "https://videos.police.ge"
    session_id := some "OLDTOKEN"
    document_number := "DOC-1"
    vehicle_number := "AA-001-BB"
    anti_captcha_key := "key"
    anti_captcha_soft_id := 1 }

/-- A login page carrying both the CAPTCHA image and the anti-forgery
token. -/
def loginPageFx : Html :=
  .tag "html" []
    [.tag "body" []
      [.tag "img" [("id", "captcha_code_img"), ("src", "captcha.php")] [],
       .tag "form" [] [.tag "input" [("name", "csrf_token"), ("value", "tok123")] []]]]

/-- An authentication world in which the CAPTCHA oracle reports its
"unsolved" sentinel. -/
def authEnvSentinel : AuthEnv :=
  { loginPage := loginPageFx
    captchaSolution := none
    postFinalUrl := "https://videos.police.ge/index.php?lang=ge"
    postSessionCookie := none }

/-- A probe response URL that redirected away from the listing. -/
def probeUrlFail : String := "https://videos.police.ge/index.php?lang=ge"

/-- An empty page (used where a fixture never follows a link). -/
def emptyPage : Html := .tag "html" [] []

/-- A two-row listing without detail links. -/
def envTwoRows : ScrapeEnv :=
  { listingPage := .tag "html" [] [.tag "div" [("class", "grid")] [rowA, rowB]]
    detailPage := fun _ => emptyPage
    blob := fun _ => [] }

/-- A detail link wrapping the scenario-A columns. -/
def linkA : Html := .tag "a" [("href", "d1")] colsA

/-- A row whose columns live inside its detail link. -/
def rowLink : Html := mkRow [linkA]

/-- One media placeholder: a `div` holding a PNG image. -/
def divImg : Html := .tag "div" [] [.tag "img" [("src", "img/x.png")] []]

/-- The structural wrapper of the claim-C4 detail page: one `div` placeholder
plus one free text node, so it has two immediate children but only one
immediate `div` child. -/
def wrapperC4 : Html := .tag "div" [("class", "wrap")] [divImg, .text "  "]

/-- The claim-C4 detail page: `div#content`, whose first `div` descendant has
the wrapper as its second immediate `div` child. -/
def detailC4 : Html :=
  .tag "html" []
    [.tag "div" [("id", "content")]
      [.tag "div" [] [.tag "div" [] [], wrapperC4]]]

/-- Scrape world for claim C4: one linked row, one placeholder plus stray
text on the detail page. -/
def envC4 : ScrapeEnv :=
  { listingPage := .tag "html" [] [.tag "div" [("class", "grid")] [rowLink]]
    detailPage := fun u => if u = "d1" then detailC4 else emptyPage
    blob := fun _ => [9, 9, 9] }

/-- A placeholder with neither an image nor the audio pattern (claim C10). -/
def badPlaceholder : Html := .tag "div" [] [.text "hello"]

/-- Wrapper holding only the defective placeholder. -/
def wrapperC10 : Html := .tag "div" [("class", "wrap")] [badPlaceholder]

/-- Detail page for claim C10. -/
def detailC10 : Html :=
  .tag "html" []
    [.tag "div" [("id", "content")]
      [.tag "div" [] [.tag "div" [] [], wrapperC10]]]

/-- Scrape world for claim C10: the only row links to the defective detail
page. -/
def envC10 : ScrapeEnv :=
  { listingPage := .tag "html" [] [.tag "div" [("class", "grid")] [rowLink]]
    detailPage := fun u => if u = "d1" then detailC10 else emptyPage
    blob := fun _ => [] }

example : get_protocol_info rowA = .ok protocolA := by rfl
example : get_protocol_info rowB = .ok protocolB := by rfl
example : get_protocols cfgOld envTwoRows = .ok [protocolA, protocolB] := by rfl
example :
    get_protocols cfgOld envC4 =
      .ok [{ protocolA with media := [{ blob := [9, 9, 9], type := .PNG }] }] := by rfl
example : isErr (get_protocols cfgOld envC10) = true := by rfl
example : get_protocol_info rowNeg = .ok { protocolA with amount := -100 } := by rfl
example : format_money_element (mkCell "-1e400XXXX") = .error .overflowError := by decide
example : format_money_element (mkCell "3e-324XXXX") = .ok 1 := by decide
example : format_money_element (mkCell "2e-324XXXX") = .ok 0 := by decide
example : format_money_element (mkCell "infWXYZ") = .error .overflowError := by decide
example : format_money_element (mkCell "nanWXYZ") = .error .valueError := by decide
example : format_money_element (mkCell "5_0.5XXXX") = .ok 5050 := by decide

/-! ### Shared lemmas about the extractor -/

/-- With a first text descendant whose suffix-stripped remainder is an
accepted float literal, the amount is `math.ceil` of the literal's binary64
value multiplied by 100 in binary64. -/
theorem format_money_element_eval {cell : Html} {s : String} {lit : PyFloatLit}
    (hh : (descendants cell).head? = some (.text s))
    (hp : parsePyFloat (s.data.take (s.data.length - 4)) = some lit) :
    format_money_element cell = pyCeil (pyMul100 (pyFloatOfLit lit)) := by
  unfold format_money_element
  cases hd : descendants cell with
  | nil => rw [hd] at hh; exact Option.noConfusion hh
  | cons d rest =>
    rw [hd] at hh
    have hdt : d = .text s := by simpa using hh
    subst hdt
    simp only [hp]

/-- With a first text descendant whose suffix-stripped remainder does not
parse as a float, `format_money_element` raises `ValueError`. -/
theorem format_money_element_parse_fail {cell : Html} {s : String}
    (hh : (descendants cell).head? = some (.text s))
    (hp : parsePyFloat (s.data.take (s.data.length - 4)) = none) :
    format_money_element cell = .error .valueError := by
  unfold format_money_element
  cases hd : descendants cell with
  | nil => rw [hd] at hh; exact Option.noConfusion hh
  | cons d rest =>
    rw [hd] at hh
    have hdt : d = .text s := by simpa using hh
    subst hdt
    simp only [hp]

/-- A record freshly built by `_get_protocol_info` carries no media. -/
theorem get_protocol_info_media_nil {row : Html} {p : Protocol}
    (h : get_protocol_info row = .ok p) : p.media = [] := by
  unfold get_protocol_info at h
  obtain ⟨c1, h1, h⟩ := bindE_ok h
  obtain ⟨pn, h2, h⟩ := bindE_ok h
  obtain ⟨cn, h3, h⟩ := bindE_ok h
  obtain ⟨c2, h4, h⟩ := bindE_ok h
  obtain ⟨dt, h5, h⟩ := bindE_ok h
  obtain ⟨c3, h6, h⟩ := bindE_ok h
  obtain ⟨c4, h7, h⟩ := bindE_ok h
  obtain ⟨am, h8, h⟩ := bindE_ok h
  obtain ⟨c6, h9, h⟩ := bindE_ok h
  injection h with h
  subst h
  rfl

/-! ### Claim C1 -/

/-- The spec's amount formula, written from the spec's words: the exact
`ceil(value_without_suffix * 100)`, with no floating point involved.  Used
only to compare the implementation against the specified value. -/
def specExactCeilTimes100 (q : Q) : ℤ := Q.ceil ⟨q.n * 100, q.d⟩

/-- Claim C1, as amended: for an amount cell whose first text descendant is
a number followed by a 4-character suffix, the computed amount is
`math.ceil` of the IEEE-754 binary64 computation `float(value) * 100` — the
literal rounded to binary64 and the product rounded again, both saturating
per IEEE-754.  In particular `"10.00XXXX"` yields `1000` and `"10.001XXXX"`
yields `1001`; a value overflowing binary64 raises `OverflowError`
(`"1e400XXXX"`), a magnitude below half the smallest subnormal underflows
to amount `0` (`"1e-400XXXX"`), and a malformed literal such as a leading
underscore raises `ValueError` (`"_5.00XXXX"`). -/
theorem C1_amount_binary64_ceil :
    (∀ (cell : Html) (s : String) (lit : PyFloatLit),
      (descendants cell).head? = some (.text s) →
      parsePyFloat (s.data.take (s.data.length - 4)) = some lit →
      format_money_element cell = pyCeil (pyMul100 (pyFloatOfLit lit)))
    ∧ format_money_element (mkCell "10.00XXXX") = .ok 1000
    ∧ format_money_element (mkCell "10.001XXXX") = .ok 1001
    ∧ format_money_element (mkCell "1e400XXXX") = .error .overflowError
    ∧ format_money_element (mkCell "1e-400XXXX") = .ok 0
    ∧ format_money_element (mkCell "_5.00XXXX") = .error .valueError := by
  exact ⟨fun cell s lit hh hp => format_money_element_eval hh hp,
    by rfl, by rfl, by rfl, by rfl, by rfl⟩

/-- Witness for C1: the amended statement applied to the cell `"15.50GEL"`
(parsed literal `155/10`), with every hypothesis discharged by evaluation. -/
theorem C1_amount_binary64_ceil_witness :
    format_money_element (mkCell "15.50GEL") =
      pyCeil (pyMul100 (pyFloatOfLit (.num ⟨155, 10⟩))) :=
  C1_amount_binary64_ceil.1 (mkCell "15.50GEL") "15.50GEL" (.num ⟨155, 10⟩)
    (by rfl) (by rfl)

/-- Counterexample for C1 as stated: the code's amount is `ceil` of a
binary64 product, not of the exact product.  `"0.07XXXX"` (value `7/100`)
yields `8` while `ceil(0.07 * 100) = 7`, so the result is not the exact
ceiling; and `"0.290000000000000001XXXX"` yields `29` while the exact
ceiling is `30`, so the result can even fall below it (it is rounded
down). -/
theorem C1_exact_ceil_cex :
    format_money_element (mkCell "0.07XXXX") = .ok 8 ∧
    parsePyFloat "0.07".data = some (.num ⟨7, 100⟩) ∧
    specExactCeilTimes100 ⟨7, 100⟩ = 7 ∧
    (8 : ℤ) ≠ 7 ∧
    format_money_element (mkCell "0.290000000000000001XXXX") = .ok 29 ∧
    parsePyFloat "0.290000000000000001".data =
      some (.num ⟨290000000000000001, 1000000000000000000⟩) ∧
    specExactCeilTimes100 ⟨290000000000000001, 1000000000000000000⟩ = 30 ∧
    (29 : ℤ) < 30 := by
  exact ⟨by rfl, by rfl, by rfl, by decide, by rfl, by rfl, by rfl, by decide⟩

/-! ### Claim C3 -/

/-- Claim C3, as amended: an amount column with no descendant yields amount
`0`; a parsable non-negative value whose binary64 product with 100 stays
finite yields a non-negative integer amount; but a present, unaccepted
first text descendant raises `ValueError` instead of yielding `0` (and
negative or overflowing values break the claim as well, per the
counterexample). -/
theorem C3_amount_defaults :
    (∀ cell : Html, descendants cell = [] → format_money_element cell = .ok 0)
    ∧ (∀ (cell : Html) (s : String) (q p : Q),
        (descendants cell).head? = some (.text s) →
        parsePyFloat (s.data.take (s.data.length - 4)) = some (.num q) →
        0 ≤ q.n →
        pyMul100 (floatOfQ q) = .finite p →
        ∃ n : ℤ, format_money_element cell = .ok n ∧ 0 ≤ n)
    ∧ (∀ (cell : Html) (s : String),
        (descendants cell).head? = some (.text s) →
        parsePyFloat (s.data.take (s.data.length - 4)) = none →
        format_money_element cell = .error .valueError) := by
  refine ⟨?_, ?_, fun cell s hh hp => format_money_element_parse_fail hh hp⟩
  · intro cell hd
    unfold format_money_element
    rw [hd]
  · intro cell s q p hh hp hq hfin
    have heval : format_money_element cell = pyCeil (pyMul100 (pyFloatOfLit (.num q))) :=
      format_money_element_eval hh hp
    have hpn : 0 ≤ p.n := by
      cases hf : floatOfQ q with
      | finite qf =>
        have hqf : 0 ≤ qf.n := floatOfQ_finite_nonneg hq hf
        have hprod : floatOfQ ⟨qf.n * 100, qf.d⟩ = .finite p := by
          rw [hf] at hfin
          exact hfin
        exact floatOfQ_finite_nonneg (mul_nonneg hqf (by norm_num)) hprod
      | inf => rw [hf] at hfin; exact PyFloat.noConfusion hfin
      | negInf => rw [hf] at hfin; exact PyFloat.noConfusion hfin
      | nan => rw [hf] at hfin; exact PyFloat.noConfusion hfin
    refine ⟨Q.ceil p, ?_, Qceil_nonneg hpn⟩
    rw [heval]
    show pyCeil (pyMul100 (floatOfQ q)) = .ok (Q.ceil p)
    rw [hfin]
    rfl

/-- Witness for C3: all three amended branches at concrete cells — an empty
column gives `0`, `"15.50GEL"` gives a non-negative amount (its binary64
product is the exact `1550`, held as `6816972092211200 / 2^42`), and
`"N/AXXXX"` raises. -/
theorem C3_amount_defaults_witness :
    format_money_element (colSpan []) = .ok 0 ∧
    (∃ n : ℤ, format_money_element (mkCell "15.50GEL") = .ok n ∧ 0 ≤ n) ∧
    format_money_element (mkCell "N/AXXXX") = .error .valueError :=
  ⟨C3_amount_defaults.1 (colSpan []) (by rfl),
   C3_amount_defaults.2.1 (mkCell "15.50GEL") "15.50GEL" ⟨155, 10⟩
     ⟨6816972092211200, 4398046511104⟩ (by rfl) (by rfl) (by decide) (by rfl),
   C3_amount_defaults.2.2 (mkCell "N/AXXXX") "N/AXXXX" (by rfl) (by rfl)⟩

/-- Counterexample for C3 as stated: a row whose amount text is
`"-1.00XXXX"` parses to the negative amount `-100`, and a present but
unparsable amount text raises instead of yielding `0`. -/
theorem C3_nonneg_cex :
    get_protocol_info rowNeg = .ok { protocolA with amount := -100 } ∧
    ({ protocolA with amount := -100 } : Protocol).amount < 0 ∧
    format_money_element (mkCell "N/AXXXX") = .error .valueError ∧
    format_money_element (mkCell "N/AXXXX") ≠ .ok 0 := by
  refine ⟨by rfl, by decide, by rfl, ?_⟩
  intro h
  have he : format_money_element (mkCell "N/AXXXX") = .error .valueError := by rfl
  rw [he] at h
  exact Except.noConfusion h

/-! ### Claim C5 -/

/-- Claim C5: status classification is total and exhaustive — for every
status node (hence every input text, including the empty string) the
classifier returns `PAID_ON_TIME` exactly on the known "paid on time"
localized string, `UNPAID` exactly on the known "unpaid" localized string,
and `UNKNOWN` on everything else.  Being a total Lean function into the
three-valued enumeration, it returns exactly one of the three and cannot
raise. -/
theorem C5_status_total :
    ∀ t : Html,
      (format_status t = .PAID_ON_TIME ↔ textOf t = paidOnTimeText) ∧
      (format_status t = .UNPAID ↔ textOf t = unpaidText) ∧
      (textOf t ≠ paidOnTimeText → textOf t ≠ unpaidText → format_status t = .UNKNOWN) := by
  intro t
  by_cases h1 : textOf t = paidOnTimeText
  · by_cases h2 : textOf t = unpaidText
    · exact absurd (h1 ▸ h2) (by decide)
    · simp [format_status, h1, h2]
      decide
  · by_cases h2 : textOf t = unpaidText
    · simp [format_status, h1, h2]
      decide
    · simp [format_status, h1, h2]

/-- Witness for C5: the empty status string classifies as `UNKNOWN`. -/
theorem C5_status_total_witness : format_status (.text "") = .UNKNOWN :=
  (C5_status_total (.text "")).2.2 (by decide) (by decide)

/-! ### Claim C7 -/

/-- Claim C7: on a row with identifier fragments `"0001122"` then
`"AA-001-BB"`, date text `"01.05.2023"`, violation code `"K-5"`, amount text
`"15.50GEL"` and the localized "unpaid" status text, `_get_protocol_info`
produces exactly the record with protocol number `0001122`, plate
`AA-001-BB`, date 2023-05-01, violation code `K-5`, amount `1550` and status
`UNPAID`. -/
theorem C7_scenarioA :
    get_protocol_info rowA =
      .ok { protocol_number := "0001122"
            car_state_number := "AA-001-BB"
            date := ⟨2023, 5, 1⟩
            violation_code := "K-5"
            amount := 1550
            status := .UNPAID
            media := [] } := by
  rfl

/-! ### Claim C8 -/

/-- Claim C8: the session probe answers `true` exactly when the final
response URL equals the requested `{base}/protocols.php` URL; any other
final URL yields `false`. -/
theorem C8_probe_url_equality :
    ∀ base finalUrl : String,
      is_authenticated base finalUrl = true ↔ finalUrl = base ++ "/protocols.php" := by
  intro base finalUrl
  simp [is_authenticated]

/-- Witness for C8: the probe accepts the exact listing URL and rejects a
redirect to the login page. -/
theorem C8_probe_url_equality_witness :
    is_authenticated "https://videos.police.ge" "https://videos.police.ge/protocols.php" = true :=
  (C8_probe_url_equality "https://videos.police.ge"
    "https://videos.police.ge/protocols.php").mpr rfl

/-! ### Claim C9 -/

/-- Claim C9: when the CAPTCHA oracle returns the unsolved sentinel, and the
login page did expose the CAPTCHA image (so control reaches the oracle),
`_authenticate` returns `None` without raising, having issued only the two
GET requests — the credential-submission POST is never sent. -/
theorem C9_sentinel_short_circuit :
    ∀ (env : AuthEnv) (img : Html),
      findIn captchaImgPred env.loginPage = some img →
      (∃ src, attrOf img "src" = some src) →
      env.captchaSolution = none →
      authenticate env = ([Req.getRoot, Req.getCaptchaImg], .ok none) ∧
      Req.postLogin ∉ (authenticate env).1 := by
  intro env img hfind hsrc hsent
  obtain ⟨src, hs⟩ := hsrc
  have hauth : authenticate env = ([Req.getRoot, Req.getCaptchaImg], .ok none) := by
    unfold authenticate
    simp only [hfind, hs, hsent]
  refine ⟨hauth, ?_⟩
  rw [hauth]
  decide

/-- Witness for C9: the sentinel environment—with the CAPTCHA image present
on the login page—short-circuits before the POST. -/
theorem C9_sentinel_short_circuit_witness :
    authenticate authEnvSentinel = ([Req.getRoot, Req.getCaptchaImg], .ok none) ∧
    Req.postLogin ∉ (authenticate authEnvSentinel).1 :=
  C9_sentinel_short_circuit authEnvSentinel
    (.tag "img" [("id", "captcha_code_img"), ("src", "captcha.php")] [])
    (by rfl) ⟨"captcha.php", by rfl⟩ (by rfl)

/-! ### Claim C2 -/

/-- Claim C2, as amended: an authentication run returns a (non-null) token
only when the post-login final URL contained the listing-page path, and the
token is then exactly the `PHPSESSID` cookie; but when the run yields a
falsy result the constructor does mutate the caller's configuration — it
overwrites `config.session_id` with that falsy result before raising. -/
theorem C2_auth_token_flow :
    ∀ (cfg : Config) (probeUrl : String) (env : AuthEnv),
      (∀ s : String, (authenticate env).2 = .ok (some s) →
        strContainsSub env.postFinalUrl "protocols.php" = true ∧
        env.postSessionCookie = some s)
      ∧ ((scrapper_init cfg probeUrl env).2 = .raisedAuthError →
          ∃ r, (authenticate env).2 = .ok r ∧ truthy r = false ∧
            ((scrapper_init cfg probeUrl env).1).session_id = r) := by
  intro cfg probeUrl env
  constructor
  · intro s hs
    cases hc1 : findIn captchaImgPred env.loginPage with
    | none => simp [authenticate, hc1] at hs
    | some img =>
      cases hc2 : attrOf img "src" with
      | none => simp [authenticate, hc1, hc2] at hs
      | some src =>
        cases hc3 : env.captchaSolution with
        | none => simp [authenticate, hc1, hc2, hc3] at hs
        | some sol =>
          cases hc4 : findIn csrfPred env.loginPage with
          | none => simp [authenticate, hc1, hc2, hc3, hc4] at hs
          | some csrf =>
            cases hc5 : attrOf csrf "value" with
            | none => simp [authenticate, hc1, hc2, hc3, hc4, hc5] at hs
            | some v =>
              cases hc6 : strContainsSub env.postFinalUrl "protocols.php" with
              | false => simp [authenticate, hc1, hc2, hc3, hc4, hc5, hc6] at hs
              | true =>
                simp only [authenticate, hc1, hc2, hc3, hc4, hc5, hc6, if_true] at hs
                exact ⟨rfl, Except.ok.inj hs⟩
  · intro hout
    cases hp : is_authenticated cfg.base_url probeUrl with
    | true => simp [scrapper_init, hp] at hout
    | false =>
      cases ha : (authenticate env).2 with
      | error e => simp [scrapper_init, hp, ha] at hout
      | ok r =>
        cases ht : truthy r with
        | true => simp [scrapper_init, hp, ha, ht] at hout
        | false =>
          refine ⟨r, rfl, ht, ?_⟩
          simp [scrapper_init, hp, ha, ht]

/-- Witness for C2: in the sentinel environment the constructor ends with
`raisedAuthError` and the configuration's token equals the authenticate
result (`None`). -/
theorem C2_auth_token_flow_witness :
    ∃ r, (authenticate authEnvSentinel).2 = .ok r ∧ truthy r = false ∧
      ((scrapper_init cfgOld probeUrlFail authEnvSentinel).1).session_id = r :=
  (C2_auth_token_flow cfgOld probeUrlFail authEnvSentinel).2 (by rfl)

/-- Counterexample for C2 as stated: with a previously configured token
`"OLDTOKEN"`, a failing probe and an unsolved CAPTCHA, the run returns null
— yet the caller's configured session token is mutated from `"OLDTOKEN"` to
`None` before the constructor raises, contradicting "no token mutation
occurs on failure". -/
theorem C2_token_mutated_cex :
    cfgOld.session_id = some "OLDTOKEN" ∧
    (authenticate authEnvSentinel).2 = .ok none ∧
    scrapper_init cfgOld probeUrlFail authEnvSentinel =
      ({ cfgOld with session_id := none }, .raisedAuthError) ∧
    ({ cfgOld with session_id := none } : Config).session_id ≠ cfgOld.session_id := by
  exact ⟨by rfl, by rfl, by rfl, by decide⟩

/-! ### Claim C6 -/

/-- Claim C6: whenever `get_protocols` succeeds, it returns exactly one
`Protocol` per `div.row` element of the grid, and position `i` of the result
is the processed row at position `i` — the output order is the listing's row
order, regardless of links. -/
theorem C6_one_protocol_per_row_in_order :
    ∀ (cfg : Config) (env : ScrapeEnv) (ps : List Protocol),
      get_protocols cfg env = .ok ps →
      ∃ rows : List Html, listing_rows env = .ok rows ∧ ps.length = rows.length ∧
        ∀ (i : ℕ) (h1 : i < rows.length) (h2 : i < ps.length),
          process_protocol_row cfg env (rows.get ⟨i, h1⟩) = .ok (ps.get ⟨i, h2⟩) := by
  intro cfg env ps h
  unfold get_protocols at h
  obtain ⟨rows, hrows, hmap⟩ := bindE_ok h
  exact ⟨rows, hrows, mapE_ok_length hmap, fun i h1 h2 => mapE_ok_get hmap i h1 h2⟩

/-- Witness for C6: the two-row listing yields the two records in row
order. -/
theorem C6_one_protocol_per_row_in_order_witness :
    ∃ rows : List Html, listing_rows envTwoRows = .ok rows ∧
      ([protocolA, protocolB] : List Protocol).length = rows.length ∧
      ∀ (i : ℕ) (h1 : i < rows.length) (h2 : i < ([protocolA, protocolB] : List Protocol).length),
        process_protocol_row cfgOld envTwoRows (rows.get ⟨i, h1⟩) =
          .ok (([protocolA, protocolB] : List Protocol).get ⟨i, h2⟩) :=
  C6_one_protocol_per_row_in_order cfgOld envTwoRows [protocolA, protocolB] (by rfl)

/-! ### Claim C4 -/

/-- Claim C4, as amended: a protocol from a row without a detail link always
has an empty media sequence; a protocol from a row with a detail link has
one media entry per immediate `div`-element child of the structural wrapper
of its detail page (`find_all("div", recursive=False)`) — non-`div`
immediate children (free text, other elements) are not counted. -/
theorem C4_media_association :
    ∀ (cfg : Config) (env : ScrapeEnv) (row : Html) (p : Protocol),
      (findIn (isTag "a") row = none →
        process_protocol_row cfg env row = .ok p → p.media = [])
      ∧ (∀ (link : Html) (href : String) (w : Html),
          findIn (isTag "a") row = some link →
          attrOf link "href" = some href →
          wrapper_of (env.detailPage href) = .ok w →
          process_protocol_row cfg env row = .ok p →
          p.media.length = (placeholders w).length) := by
  intro cfg env row p
  constructor
  · intro hnone hproc
    unfold process_protocol_row at hproc
    rw [hnone] at hproc
    exact get_protocol_info_media_nil hproc
  · intro link href w hfind hhref hw hproc
    unfold process_protocol_row at hproc
    rw [hfind] at hproc
    obtain ⟨p0, hinfo, hproc⟩ := bindE_ok hproc
    obtain ⟨href2, hhr, hproc⟩ := bindE_ok hproc
    have hhref2 : href2 = href := by
      rw [hhref] at hhr
      exact (Except.ok.inj hhr).symm
    subst hhref2
    obtain ⟨m, hm, hproc⟩ := bindE_ok hproc
    injection hproc with hproc
    subst hproc
    unfold get_protocol_media at hm
    obtain ⟨w2, hw2, hmap⟩ := bindE_ok hm
    have hww : w2 = w := by
      rw [hw] at hw2
      exact (Except.ok.inj hw2).symm
    subst hww
    simpa using mapE_ok_length hmap

/-- The record the claim-C4 environment produces: scenario A's fields plus
the one resolved PNG attachment. -/
def protocolC4 : Protocol :=
  { protocolA with media := [{ blob := [9, 9, 9], type := .PNG }] }

/-- Witness for C4: both amended branches at concrete rows — the link-free
scenario-A row keeps no media, and the linked row's media count equals the
wrapper's immediate `div`-child count. -/
theorem C4_media_association_witness :
    protocolA.media = [] ∧
    protocolC4.media.length = (placeholders wrapperC4).length :=
  ⟨(C4_media_association cfgOld envTwoRows rowA protocolA).1 (by rfl) (by rfl),
   (C4_media_association cfgOld envC4 rowLink protocolC4).2 linkA "d1" wrapperC4
     (by rfl) (by rfl) (by rfl) (by rfl)⟩

/-- Counterexample for C4 as stated: on the claim-C4 detail page the wrapper
has two immediate children (one `div` placeholder and one free text node),
but the linked row's protocol carries exactly one media entry — the media
count matches the immediate `div` children, not the immediate children. -/
theorem C4_children_count_cex :
    get_protocols cfgOld envC4 = .ok [protocolC4] ∧
    findIn (isTag "a") rowLink = some linkA ∧
    attrOf linkA "href" = some "d1" ∧
    wrapper_of (envC4.detailPage "d1") = .ok wrapperC4 ∧
    protocolC4.media.length = 1 ∧
    (childrenOf wrapperC4).length = 2 ∧
    (1 : ℕ) ≠ 2 := by
  exact ⟨by rfl, by rfl, by rfl, by rfl, by rfl, by rfl, by decide⟩

/-! ### Claim C10 -/

/-- Claim C10: a detail-page placeholder with neither an image element nor a
serialised-markup match of the `'oggvideo-<id>.ogg';src2` pattern makes
`create_media_blob` raise `AttributeError` (there is no skip-or-empty
branch), which aborts `_get_protocol_media` and with it the entire
`get_protocols` call for the listing. -/
theorem C10_unmatched_placeholder_aborts :
    ∀ (cfg : Config) (env : ScrapeEnv) (rows : List Html) (row link : Html) (href : String)
      (w t : Html),
      listing_rows env = .ok rows → row ∈ rows →
      findIn (isTag "a") row = some link → attrOf link "href" = some href →
      wrapper_of (env.detailPage href) = .ok w → t ∈ placeholders w →
      findIn (isTag "img") t = none → oggSearch (render t).data = none →
      create_media_blob cfg env t = .error .attributeError ∧
      isErr (get_protocol_media cfg env href) = true ∧
      isErr (get_protocols cfg env) = true := by
  intro cfg env rows row link href w t hrows hrow hfind hhref hw ht himg hogg
  have hblob : create_media_blob cfg env t = .error .attributeError := by
    unfold create_media_blob
    simp only [himg, hogg]
  have hmedia : isErr (get_protocol_media cfg env href) = true := by
    unfold get_protocol_media
    exact bindE_isErr_right hw (mapE_isErr_of_mem ht (by rw [hblob]; rfl))
  have hrowErr : isErr (process_protocol_row cfg env row) = true := by
    unfold process_protocol_row
    rw [hfind]
    cases hinfo : get_protocol_info link with
    | error e => exact bindE_isErr_left (by rw [hinfo]; rfl)
    | ok p0 =>
      refine bindE_isErr_right hinfo ?_
      refine bindE_isErr_right (a := href) (by rw [hhref]; rfl) ?_
      exact bindE_isErr_left hmedia
  refine ⟨hblob, hmedia, ?_⟩
  unfold get_protocols
  exact bindE_isErr_right hrows (mapE_isErr_of_mem hrow hrowErr)

/-- Witness for C10: in the claim-C10 environment the defective placeholder
raises and the whole `get_protocols` run is aborted. -/
theorem C10_unmatched_placeholder_aborts_witness :
    create_media_blob cfgOld envC10 badPlaceholder = .error .attributeError ∧
    isErr (get_protocol_media cfgOld envC10 "d1") = true ∧
    isErr (get_protocols cfgOld envC10) = true :=
  C10_unmatched_placeholder_aborts cfgOld envC10 [rowLink] rowLink linkA "d1"
    wrapperC10 badPlaceholder (by rfl) (List.mem_singleton.mpr rfl) (by rfl) (by rfl)
    (by rfl) (List.mem_singleton.mpr rfl) (by rfl) (by rfl)
